import Mathlib

/-!
Shallow embedding of the READ2ME client layer: the add-content handlers,
the queue-status widgets, the source manager, the todays-feed view and the
media library list, together with proofs about the requests they issue and
the display state they derive.
-/

namespace Read2Me

/-- Stored client settings, as returned by getSettings in frontend/lib/settings.ts:
a server base URL and a TTS engine identifier. -/
structure Settings where
  serverUrl : String
  ttsEngine : String
deriving DecidableEq

/-- HTTP method of a request issued by the client. -/
inductive Method where
  | get
  | post
  | delete
deriving DecidableEq

/-- An HTTP request with a typed JSON body. -/
structure HttpRequest (β : Type) where
  method : Method
  url : String
  body : β
deriving DecidableEq

/-! ## Models of platform string primitives

The client code uses the JavaScript platform functions split, trim and the
WHATWG URL constructor.  They are modelled here as executable structural
recursions over character lists. -/

/-- Whitespace recognised by the JavaScript trim (ASCII subset). -/
def isJsWhitespace (c : Char) : Bool :=
  c == ' ' || (9 ≤ c.toNat && c.toNat ≤ 13)

/-- Modelled from the spec: the JavaScript String.prototype.trim platform
function, removing leading and trailing whitespace. -/
def jsTrim (s : String) : String :=
  String.mk (((s.toList.dropWhile isJsWhitespace).reverse.dropWhile isJsWhitespace).reverse)

/-- Splitting worker: accumulate the current field (reversed) and cut at
every separator. -/
def splitOnCharAux (sep : Char) (acc : List Char) : List Char → List (List Char)
  | [] => [acc.reverse]
  | c :: cs =>
    if c == sep then acc.reverse :: splitOnCharAux sep [] cs
    else splitOnCharAux sep (c :: acc) cs

/-- Modelled from the spec: the JavaScript String.prototype.split platform
function with a one-character separator; splitting the empty string yields
a singleton list holding the empty string. -/
def jsSplit (sep : Char) (s : String) : List String :=
  (splitOnCharAux sep [] s.toList).map String.mk

/-- ASCII lower-casing of one character. -/
def lowerAsciiChar (c : Char) : Char :=
  if c.isUpper then Char.ofNat (c.toNat + 32) else c

/-- ASCII lower-casing of a character list into a string. -/
def lowerAscii (cs : List Char) : String :=
  String.mk (cs.map lowerAsciiChar)

/-! ## Model of the WHATWG URL constructor

The handlers validate URLs with `new URL(url)` inside try/catch.  That
constructor is platform code, not repository code. -/

/-- Character allowed after the first character of a URL scheme:
ASCII alphanumeric or one of plus, minus, dot. -/
def schemeRestChar (c : Char) : Bool :=
  c.isAlphanum || c == '+' || c == '-' || c == '.'

/-- Scan a scheme up to the first colon; accumulator holds the scheme
characters in reverse.  Returns the scheme and the remaining characters,
or none when no colon terminates a well-formed scheme. -/
def takeSchemeAux (acc : List Char) : List Char → Option (List Char × List Char)
  | [] => none
  | c :: cs =>
    if c == ':' then some (acc.reverse, cs)
    else if schemeRestChar c then takeSchemeAux (c :: acc) cs
    else none

/-- Split off a URL scheme: a leading ASCII letter followed by scheme
characters and a colon. -/
def takeScheme : List Char → Option (List Char × List Char)
  | [] => none
  | c :: cs => if c.isAlpha then takeSchemeAux [c] cs else none

/-- Special schemes of the WHATWG URL standard that require a host
(the file scheme, which tolerates an empty host, is handled separately). -/
def specialScheme (s : String) : Bool :=
  s == "http" || s == "https" || s == "ws" || s == "wss" || s == "ftp"

/-- Characters that terminate the host component of a URL. -/
def hostDelim (c : Char) : Bool :=
  c == '/' || c == ':' || c == '?' || c == '#'

/-- Modelled from the spec: success of the platform `new URL(input)`
constructor (WHATWG basic URL parser, no base URL), which is not repository
code.  The input is trimmed; it must start with a scheme.  For the special
schemes the parser skips any run of slashes and then requires a nonempty
host free of spaces; any other scheme accepts the remainder without further checks. -/
def newURLOk (input : String) : Bool :=
  match takeScheme (jsTrim input).toList with
  | none => false
  | some (schemeCs, rest) =>
    let scheme := lowerAscii schemeCs
    if specialScheme scheme then
      let afterSlashes := rest.dropWhile (fun c => c == '/' || c == '\\')
      let host := afterSlashes.takeWhile (fun c => !hostDelim c)
      !host.isEmpty && host.all (fun c => !(c == ' '))
    else
      true

/-- Validation used by the add-URL handlers (addHandlers.tsx, ArticleAdder.tsx,
part_011): true exactly when `new URL(url)` does not throw. -/
def isValidUrl (url : String) : Bool :=
  newURLOk url

/-- Formalisation of the words of the specification, for comparison with
isValidUrl: a syntactically valid absolute URL with http or https scheme and
a DNS-capable (nonempty, dotted, space-free) host. -/
def specValidOriginUrl (input : String) : Bool :=
  match takeScheme (jsTrim input).toList with
  | none => false
  | some (schemeCs, rest) =>
    let scheme := lowerAscii schemeCs
    (scheme == "http" || scheme == "https") &&
      (let afterSlashes := rest.dropWhile (fun c => c == '/' || c == '\\')
       let host := afterSlashes.takeWhile (fun c => !hostDelim c)
       !host.isEmpty && host.all (fun c => !(c == ' ')) && host.any (fun c => c == '.'))

/-! ## Add-content handlers (addHandlers.tsx, part_011) -/

/-- JSON body of a URL enqueue request: url and tts_engine fields. -/
structure EnqueueUrlBody where
  url : String
  tts_engine : String
deriving DecidableEq

/-- JSON body of a raw-text enqueue request: text and tts_engine fields. -/
structure EnqueueTextBody where
  text : String
  tts_engine : String
deriving DecidableEq

/-- handleAddUrl of addHandlers.tsx: when the URL fails isValidUrl, show a
validation error and issue no request (none); otherwise POST to
serverUrl/v1/endpoint with body consisting of url and tts_engine. -/
def handleAddUrl (s : Settings) (url endpoint : String) :
    Option (HttpRequest EnqueueUrlBody) :=
  if isValidUrl url then
    some ⟨Method.post, s.serverUrl ++ "/v1/" ++ endpoint, ⟨url, s.ttsEngine⟩⟩
  else
    none

/-- handleAddText of addHandlers.tsx: unconditionally POST to
serverUrl/v1/endpoint with body consisting of text and tts_engine
(the standalone handler performs no emptiness check). -/
def handleAddText (s : Settings) (text endpoint : String) :
    HttpRequest EnqueueTextBody :=
  ⟨Method.post, s.serverUrl ++ "/v1/" ++ endpoint, ⟨text, s.ttsEngine⟩⟩

/-- handleAddText of the useAddHandlers hook (part_011): when the trimmed
text is empty, show a validation error and issue no request; otherwise POST
as the standalone handler does. -/
def hookHandleAddText (s : Settings) (text endpoint : String) :
    Option (HttpRequest EnqueueTextBody) :=
  if jsTrim text == "" then
    none
  else
    some ⟨Method.post, s.serverUrl ++ "/v1/" ++ endpoint, ⟨text, s.ttsEngine⟩⟩

/-- Processing mode selected by the add-content buttons. -/
inductive Mode where
  | full
  | summary
  | podcast
deriving DecidableEq

/-- Path component of a mode, as in the endpoint strings passed by
ArticleAdder.tsx and TodayFeedList.tsx. -/
def Mode.endpointName : Mode → String
  | Mode.full => "full"
  | Mode.summary => "summary"
  | Mode.podcast => "podcast"

/-! ## Queue widget (TaskQueueStatus.tsx, hover-card version) -/

/-- A task as the queue widget receives it: type is a source/action pair
such as url/full, content is the URL or text, tts_engine the engine. -/
structure QueueTask where
  type : String
  content : String
  tts_engine : String
deriving DecidableEq

/-- Response data consumed by fetchQueueStatus: a task_count and an
optional tasks array. -/
structure PollData where
  task_count : Int
  tasks : Option (List QueueTask)
deriving DecidableEq

/-- Component state touched by fetchQueueStatus: taskCount and
previousTaskCount start as null, tasks starts empty. -/
structure PollState where
  taskCount : Option Int
  previousTaskCount : Option Int
  tasks : List QueueTask
deriving DecidableEq

/-- Initial state of the queue widget. -/
def pollInit : PollState :=
  ⟨none, none, []⟩

/-- Comparison of the reported tasks array with the stored one via
JSON serialisation: an absent array never serialises equal to a stored
array. -/
def tasksChanged (st : PollState) (d : PollData) : Bool :=
  d.tasks != some st.tasks

/-- Comparison of the reported task_count with the stored one; the stored
count is null before the first successful poll. -/
def countChanged (st : PollState) (d : PollData) : Bool :=
  some d.task_count != st.taskCount

/-- One poll of fetchQueueStatus: when the tasks or the count changed,
refresh the article library exactly when a previous count was stored and
the new count is strictly smaller, then store the new count (into both
taskCount and previousTaskCount) and the new tasks.  Returns the new state
and whether refreshArticles was invoked. -/
def pollStep (st : PollState) (d : PollData) : PollState × Bool :=
  if tasksChanged st d || countChanged st d then
    (⟨some d.task_count, some d.task_count, d.tasks.getD []⟩,
      match st.previousTaskCount with
      | none => false
      | some p => decide (d.task_count < p))
  else
    (st, false)

/-- State of the queue widget after a sequence of polls from the initial
state. -/
def pollRun (ds : List PollData) : PollState :=
  ds.foldl (fun st d => (pollStep st d).1) pollInit

/-- URL polled by fetchQueueStatus of the hover-card widget. -/
def queueStatusUrl (serverUrl : String) : String :=
  serverUrl ++ "/v1/queue/status"

/-- URL polled by fetchStatus of the modal status view (and, with a fixed
localhost server, by the standalone Status component of part_007). -/
def statusUrl (serverUrl : String) : String :=
  serverUrl ++ "/v1/status"

/-! ## Task removal (TaskQueueStatus.tsx removeTask) -/

/-- JSON serialisation of a queue task, in object-literal field order, as
sent by JSON.stringify(task). -/
def encodeTask (t : QueueTask) : List (String × String) :=
  [("type", t.type), ("content", t.content), ("tts_engine", t.tts_engine)]

/-- Request issued by removeTask: DELETE to serverUrl/v1/queue/remove with
the serialised task as body. -/
def removeTaskRequest (s : Settings) (t : QueueTask) :
    HttpRequest (List (String × String)) :=
  ⟨Method.delete, s.serverUrl ++ "/v1/queue/remove", encodeTask t⟩

/-- Follow-up effects the client runs after a response. -/
inductive FollowUp where
  | toastSuccess
  | toastError
  | refreshArticlesAct
  | fetchQueueStatusAct
  | fetchArticlesAct
deriving DecidableEq

/-- Effects run by removeTask after the response: on ok, a success toast,
refreshArticles and fetchQueueStatus in that order; otherwise an error
toast. -/
def removeTaskFollowUps (ok : Bool) : List FollowUp :=
  if ok then
    [FollowUp.toastSuccess, FollowUp.refreshArticlesAct, FollowUp.fetchQueueStatusAct]
  else
    [FollowUp.toastError]

/-! ## Status view (TaskQueueStatus.tsx modal version, part_007) -/

/-- Queue counts as displayed. -/
structure QueueCounts where
  pending : Int
  processing : Int
  completed : Int
  failed : Int
deriving DecidableEq

/-- Raw queue object of a status response; every count may be absent. -/
structure RawQueue where
  pending : Option Int
  processing : Option Int
  completed : Option Int
  failed : Option Int
deriving DecidableEq

/-- A task snapshot of the status response. -/
structure StatusTask where
  id : String
  status : String
  progress : Int
  tts_engine : String
  task : String
deriving DecidableEq

/-- An error item of the status response. -/
structure ErrorItem where
  timestamp : String
  message : String
  type : String
deriving DecidableEq

/-- Raw JSON data of a status response; each top-level field may be
absent. -/
structure RawStatusData where
  queue : Option RawQueue
  tasks : Option (List StatusTask)
  errors : Option (List ErrorItem)
  lastUpdate : Option String
deriving DecidableEq

/-- Status state held by the modal component.  The tasks field is optional
because the formatted status built by fetchStatus assigns no tasks field at
all. -/
structure StatusState where
  queue : QueueCounts
  tasks : Option (List StatusTask)
  errors : List ErrorItem
  lastUpdate : String
deriving DecidableEq

/-- formattedStatus built by fetchStatus: each count defaults to 0 when the
queue object or the count is absent, errors default to the empty array when
not an array, lastUpdate defaults to the current time; no tasks field is
assigned. -/
def formatStatus (now : String) (d : RawStatusData) : StatusState :=
  { queue :=
      { pending := ((d.queue.bind RawQueue.pending).getD 0)
        processing := ((d.queue.bind RawQueue.processing).getD 0)
        completed := ((d.queue.bind RawQueue.completed).getD 0)
        failed := ((d.queue.bind RawQueue.failed).getD 0) }
    tasks := none
    errors := d.errors.getD []
    lastUpdate := d.lastUpdate.getD now }

/-- Display state derived inside StatusContent. -/
structure DisplayState where
  queue : QueueCounts
  tasks : List StatusTask
  errors : List ErrorItem
  lastUpdate : String
deriving DecidableEq

/-- Safety derivation of StatusContent: queue, tasks and errors fall back
to all-zero counts, an empty task list and an empty error list. -/
def statusContentView (status : StatusState) : DisplayState :=
  { queue := status.queue
    tasks := status.tasks.getD []
    errors := status.errors
    lastUpdate := status.lastUpdate }

/-! ## Source manager (SourceManager.tsx) and extension popup (popup.js) -/

/-- A source item of the add-sources body sent by the SourceManager UI. -/
structure SourceItem where
  url : String
  keywords : List String
  category : String
deriving DecidableEq

/-- Body of POST v1/sources/add as the SourceManager UI builds it. -/
structure AddSourcesBody where
  sources : List SourceItem
deriving DecidableEq

/-- Keyword list sent by handleAddSource: the single sentinel star when
fetch-all is selected, otherwise the comma-split input with every entry
trimmed and empty entries removed. -/
def sourceKeywords (fetchAll : Bool) (keywords : String) : List String :=
  if fetchAll then ["*"]
  else ((jsSplit ',' keywords).map jsTrim).filter (fun k => k.length > 0)

/-- Category sent by handleAddSource: the custom category text when the
Custom category is selected, otherwise the selected category. -/
def sourceCategory (category customCategory : String) : String :=
  if category == "Custom" then customCategory else category

/-- Body built by handleAddSource of SourceManager.tsx. -/
def handleAddSourceBody (url keywords : String) (fetchAll : Bool)
    (category customCategory : String) : AddSourcesBody :=
  ⟨[⟨url, sourceKeywords fetchAll keywords, sourceCategory category customCategory⟩]⟩

/-- A source item as the extension popup builds it: url and keywords only,
no category field. -/
structure PopupSourceItem where
  url : String
  keywords : List String
deriving DecidableEq

/-- Keyword list built by the addSourceButton handler of popup.js: the
comma-split input with every entry trimmed; empty entries are kept. -/
def popupKeywords (input : String) : List String :=
  (jsSplit ',' input).map jsTrim

/-- Guard of the addSourceButton handler: the popup sends exactly when the
URL is nonempty and the keyword list is nonempty. -/
def popupSends (url input : String) : Bool :=
  url != "" && (popupKeywords input).length > 0

/-- Source data the popup hands to the background makeRequest for
v1/sources/add. -/
def popupSourceData (url input : String) : PopupSourceItem :=
  ⟨url, popupKeywords input⟩

/-! ## Extension background dispatch (background.js, makeRequest switch) -/

/-- JSON body shapes sent by the background makeRequest: a flat object of
string fields, or the add-source wrapper around the popup source data. -/
inductive ExtensionBody where
  | kv (fields : List (String × String))
  | sources (items : List PopupSourceItem)
deriving DecidableEq

/-- Base URL of the background requests: the serverUrl carried by the
message, or the default when it is absent (falsy). -/
def extensionBaseUrl (serverUrl : String) : String :=
  if serverUrl = "" then "http://127.0.0.1:7777" else serverUrl

/-- Extension action name for a URL enqueue of a mode. -/
def Mode.urlAction : Mode → String
  | Mode.full => "addUrlFull"
  | Mode.summary => "addUrlSummary"
  | Mode.podcast => "addUrlPodcast"

/-- Extension action name for a raw-text enqueue of a mode. -/
def Mode.textAction : Mode → String
  | Mode.full => "addTextFull"
  | Mode.summary => "addTextSummary"
  | Mode.podcast => "addTextPodcast"

/-- Value of the task field the background sends for a mode. -/
def Mode.taskName : Mode → String
  | Mode.full => "full"
  | Mode.summary => "tldr"
  | Mode.podcast => "podcast"

/-- Switch of the background message listener: the request issued for the
message action, with the engine string taken from the message (the popup
select), a task field on every enqueue body, and no body for GET.  The
default case responds with an unknown-action error and issues no request;
in particular there is no addTextPodcast case. -/
def backgroundDispatch (baseUrl url text engine : String)
    (sourceData : PopupSourceItem) (action : String) :
    Option (HttpRequest (Option ExtensionBody)) :=
  match action with
  | "addUrlFull" => some ⟨Method.post, baseUrl ++ "/v1/url/full",
      some (ExtensionBody.kv
        [("url", url), ("tts_engine", engine), ("task", "full")])⟩
  | "addUrlSummary" => some ⟨Method.post, baseUrl ++ "/v1/url/summary",
      some (ExtensionBody.kv
        [("url", url), ("tts_engine", engine), ("task", "tldr")])⟩
  | "addUrlPodcast" => some ⟨Method.post, baseUrl ++ "/v1/url/podcast",
      some (ExtensionBody.kv
        [("url", url), ("tts_engine", engine), ("task", "podcast")])⟩
  | "addTextFull" => some ⟨Method.post, baseUrl ++ "/v1/text/full",
      some (ExtensionBody.kv
        [("text", text), ("tts_engine", engine), ("task", "full")])⟩
  | "addTextSummary" => some ⟨Method.post, baseUrl ++ "/v1/text/summary",
      some (ExtensionBody.kv
        [("text", text), ("tts_engine", engine), ("task", "tldr")])⟩
  | "fetchSources" => some ⟨Method.post, baseUrl ++ "/v1/sources/fetch",
      some (ExtensionBody.kv [])⟩
  | "getSources" => some ⟨Method.get, baseUrl ++ "/v1/sources/get", none⟩
  | "addSource" => some ⟨Method.post, baseUrl ++ "/v1/sources/add",
      some (ExtensionBody.sources [sourceData])⟩
  | _ => none

/-! ## Todays feed (TodayFeedList.tsx) -/

/-- A feed entry returned by GET v1/feeds/get_todays_articles. -/
structure FeedEntry where
  title : Option String
  link : String
  published : String
  category : String
  source : String
deriving DecidableEq

/-- Category an entry is grouped under: Uncategorized when the category is
empty (falsy), the category itself otherwise. -/
def entryCategory (e : FeedEntry) : String :=
  if e.category = "" then "Uncategorized" else e.category

/-- One step of the grouping reduce: append the entry to the bucket of its
category, modelling the record as a function from category to list. -/
def groupStep (groups : String → List FeedEntry) (e : FeedEntry) :
    String → List FeedEntry :=
  fun c => if c = entryCategory e then groups c ++ [e] else groups c

/-- groupedFeedEntries: group all fetched entries by category with a left
fold, as the reduce in TodayFeedList.tsx does. -/
def groupedFeedEntries (entries : List FeedEntry) : String → List FeedEntry :=
  entries.foldl groupStep (fun _ => [])

/-- Entries rendered under a category: the group filtered to entries whose
published timestamp, mapped to an ISO day by the abstract isoDay function,
equals the current day string. -/
def displayedEntries (isoDay : String → String) (today : String)
    (entries : List FeedEntry) (c : String) : List FeedEntry :=
  (groupedFeedEntries entries c).filter (fun e => isoDay e.published == today)

/-! ## Media library (ArticleList.tsx) -/

/-- Raw media item of the GET v1/available-media response.  A missing or
null id is modelled as the empty string, matching the falsy check of the
code; a missing date_published is none. -/
structure RawMediaItem where
  id : String
  content_type : String
  title : Option String
  source : Option String
  date_added : String
  date_published : Option String
  audio_file : String
  url : Option String
deriving DecidableEq

/-- A validated article, with the fields the transform keeps, in
object-literal order. -/
structure Article where
  id : String
  title : Option String
  source : Option String
  date_added : String
  date_published : Option String
  audio_file : String
  content_type : String
  url : Option String
deriving DecidableEq

/-- Content types accepted by the validation in fetchArticles. -/
def validContentTypes : List String :=
  ["article", "podcast", "text"]

/-- Validation and transformation of one fetched item: items with a falsy
id, a falsy content_type or a content_type outside the accepted list are
dropped. -/
def validateItem (item : RawMediaItem) : Option Article :=
  if item.id = "" || item.content_type = ""
      || !(validContentTypes.contains item.content_type) then
    none
  else
    some ⟨item.id, item.title, item.source, item.date_added,
      item.date_published, item.audio_file, item.content_type, item.url⟩

/-- validArticles: map items through validation and keep the survivors. -/
def validArticles (data : List RawMediaItem) : List Article :=
  data.filterMap validateItem

/-- Date string an article is sorted by: date_published when present and
nonempty (truthy), date_added otherwise. -/
def sortDateString (a : Article) : String :=
  match a.date_published with
  | some d => if d = "" then a.date_added else d
  | none => a.date_added

/-- Descending comparison used by the sort comparator dateB minus dateA,
with the platform Date parsing abstracted into toTime. -/
def newestFirst (toTime : String → Int) (a b : Article) : Bool :=
  decide (toTime (sortDateString b) ≤ toTime (sortDateString a))

/-- sortedArticles: the validated articles sorted most recent first, as by
the stable array sort with the dateB minus dateA comparator. -/
def sortedArticles (toTime : String → Int) (data : List RawMediaItem) :
    List Article :=
  (validArticles data).mergeSort (newestFirst toTime)

/-- Item of the bulk-delete body. -/
structure DeleteItem where
  content_type : String
  id : String
deriving DecidableEq

/-- Body of DELETE v1/audio: an items array. -/
structure DeleteAudioBody where
  items : List DeleteItem
deriving DecidableEq

/-- Request issued by handleDelete of ArticleList.tsx for one article. -/
def handleDeleteRequest (s : Settings) (a : Article) :
    HttpRequest DeleteAudioBody :=
  ⟨Method.delete, s.serverUrl ++ "/v1/audio", ⟨[⟨a.content_type, a.id⟩]⟩⟩

/-- Parsed JSON of the delete response: an optional errors array. -/
structure DeleteResult where
  errors : Option (List String)
deriving DecidableEq

/-- Outcome of the delete operation. -/
inductive DeleteOutcome where
  | success
  | failure
deriving DecidableEq

/-- handleDelete outcome: failure when the response is not ok, or when the
response carries a nonempty errors array; success otherwise. -/
def handleDeleteOutcome (ok : Bool) (r : DeleteResult) : DeleteOutcome :=
  if !ok then DeleteOutcome.failure
  else
    match r.errors with
    | some es => if es.length > 0 then DeleteOutcome.failure else DeleteOutcome.success
    | none => DeleteOutcome.success

/-- Effects run by handleDelete after the outcome: on success a toast and a
re-fetch of the article list; on failure an error toast. -/
def deleteFollowUps (o : DeleteOutcome) : List FollowUp :=
  match o with
  | DeleteOutcome.success => [FollowUp.toastSuccess, FollowUp.fetchArticlesAct]
  | DeleteOutcome.failure => [FollowUp.toastError]

/-! ## Helper lemmas -/

/-- Appending a literal tail splits across a right-associated append. -/
theorem append_split (s a b c : String) (h : a ++ b = c) : s ++ a ++ b = s ++ c := by
  rw [String.append_assoc, h]

/-- The grouping fold sends a category to its starting bucket followed by
the entries of that category, in order. -/
theorem foldl_groupStep (entries : List FeedEntry) (g : String → List FeedEntry)
    (c : String) :
    (entries.foldl groupStep g) c
      = g c ++ entries.filter (fun e => entryCategory e == c) := by
  induction entries generalizing g with
  | nil => simp
  | cons e es ih =>
    rw [List.foldl_cons, ih, List.filter_cons]
    by_cases h : entryCategory e = c
    · simp [groupStep, h]
    · simp [groupStep, h, fun hc : c = entryCategory e => h hc.symm]
      exact fun hc => h hc.symm

/-- One poll step preserves the invariant that taskCount and
previousTaskCount are equal: both are stored together. -/
theorem pollStep_inv (st : PollState) (d : PollData)
    (h : st.taskCount = st.previousTaskCount) :
    ((pollStep st d).1).taskCount = ((pollStep st d).1).previousTaskCount := by
  unfold pollStep
  split
  · rfl
  · exact h

/-- Every reachable widget state stores the same value in taskCount and
previousTaskCount. -/
theorem pollRun_inv (ds : List PollData) :
    (pollRun ds).taskCount = (pollRun ds).previousTaskCount := by
  suffices h : ∀ st : PollState, st.taskCount = st.previousTaskCount →
      ((ds.foldl (fun st d => (pollStep st d).1) st)).taskCount
        = ((ds.foldl (fun st d => (pollStep st d).1) st)).previousTaskCount by
    exact h pollInit rfl
  induction ds with
  | nil => intro st h; simpa using h
  | cons d ds ih =>
    intro st h
    exact ih _ (pollStep_inv st d h)

/-! ## Claim theorems -/

/-- C1, counterexample: at the concrete input ftp://example.com the client
issues an enqueue request although the string is not an http or https URL,
and the standalone text handler issues a request for the empty text, so
origin validation as claimed does not happen before enqueue. -/
theorem C1_counterexample :
    (handleAddUrl ⟨"http://localhost:7777", "edge"⟩ "ftp://example.com" "url/full").isSome = true
    ∧ specValidOriginUrl "ftp://example.com" = false
    ∧ handleAddText ⟨"http://localhost:7777", "edge"⟩ "" "text/full"
        = ⟨Method.post, "http://localhost:7777/v1/text/full", ⟨"", "edge"⟩⟩ := by
  refine ⟨by decide, by decide, by decide⟩

/-- C1, amended: a URL submission issues the enqueue request exactly when
the URL constructor parses the string (any scheme, no host requirement),
otherwise a validation error is shown and no request is made; a raw-text
submission through the useAddHandlers hook is sent exactly when the trimmed
text is nonempty, while the standalone text handler posts unconditionally. -/
theorem C1_validation_guards (s : Settings) (url text endpoint : String) :
    ((handleAddUrl s url endpoint).isSome ↔ isValidUrl url = true)
    ∧ ((hookHandleAddText s text endpoint).isSome ↔ jsTrim text ≠ "")
    ∧ (handleAddText s text endpoint).method = Method.post := by
  refine ⟨?_, ?_, rfl⟩
  · by_cases h : isValidUrl url <;> simp [handleAddUrl, h]
  · by_cases h : jsTrim text = "" <;> simp [hookHandleAddText, h]

/-- C2, counterexample: at concrete inputs the extension background, a
cited enqueue client, issues no request at all for the raw-text podcast
action, and its URL full-text enqueue body carries a third task field, so
not every enqueue action sends exactly the claimed url and tts_engine
body. -/
theorem C2_counterexample :
    backgroundDispatch "http://127.0.0.1:7777" "http://example.com" "some text"
        "edge" ⟨"", []⟩ "addTextPodcast" = none
    ∧ backgroundDispatch "http://127.0.0.1:7777" "http://example.com" "some text"
        "edge" ⟨"", []⟩ "addUrlFull"
      = some ⟨Method.post, "http://127.0.0.1:7777/v1/url/full",
          some (ExtensionBody.kv [("url", "http://example.com"),
            ("tts_engine", "edge"), ("task", "full")])⟩ :=
  ⟨rfl, rfl⟩

/-- C2, amended: for every mode, a validated URL submission of the web
frontend issues POST serverUrl/v1/url/mode with body url and tts_engine
from the settings, and a text submission issues POST serverUrl/v1/text/mode
with body text and tts_engine from the settings; the extension background
instead posts enqueue bodies that additionally carry a task field (full,
tldr or podcast), takes the engine string from the message sent by the
popup select, and has no raw-text podcast action. -/
theorem C2_enqueue_requests (s : Settings) (baseUrl url text engine : String)
    (m : Mode) (sd : PopupSourceItem) (h : isValidUrl url = true) :
    handleAddUrl s url ("url/" ++ m.endpointName)
      = some ⟨Method.post, s.serverUrl ++ "/v1/url/" ++ m.endpointName,
          ⟨url, s.ttsEngine⟩⟩
    ∧ handleAddText s text ("text/" ++ m.endpointName)
      = ⟨Method.post, s.serverUrl ++ "/v1/text/" ++ m.endpointName,
          ⟨text, s.ttsEngine⟩⟩
    ∧ backgroundDispatch baseUrl url text engine sd m.urlAction
      = some ⟨Method.post, baseUrl ++ "/v1/url/" ++ m.endpointName,
          some (ExtensionBody.kv
            [("url", url), ("tts_engine", engine), ("task", m.taskName)])⟩
    ∧ backgroundDispatch baseUrl url text engine sd "addTextFull"
      = some ⟨Method.post, baseUrl ++ "/v1/text/full",
          some (ExtensionBody.kv
            [("text", text), ("tts_engine", engine), ("task", "full")])⟩
    ∧ backgroundDispatch baseUrl url text engine sd "addTextSummary"
      = some ⟨Method.post, baseUrl ++ "/v1/text/summary",
          some (ExtensionBody.kv
            [("text", text), ("tts_engine", engine), ("task", "tldr")])⟩
    ∧ backgroundDispatch baseUrl url text engine sd "addTextPodcast" = none := by
  cases m <;>
    exact ⟨by
        simp only [handleAddUrl, h, if_true, Mode.endpointName,
          append_split s.serverUrl _ _ _ rfl]
        rfl,
      by
        simp only [handleAddText, Mode.endpointName,
          append_split s.serverUrl _ _ _ rfl]
        rfl,
      by
        simp only [Mode.urlAction, Mode.endpointName, Mode.taskName,
          backgroundDispatch, append_split baseUrl _ _ _ rfl]
        rfl,
      rfl, rfl, rfl⟩

/-- C2, witness: the theorem applied at a concrete settings record, base
URL, URL, text, engine, mode and source data. -/
theorem C2_enqueue_requests_witness :
    handleAddUrl ⟨"http://localhost:7777", "edge"⟩ "http://example.com"
        ("url/" ++ Mode.full.endpointName)
      = some ⟨Method.post, "http://localhost:7777" ++ "/v1/url/" ++ Mode.full.endpointName,
          ⟨"http://example.com", "edge"⟩⟩
    ∧ handleAddText ⟨"http://localhost:7777", "edge"⟩ "some text"
        ("text/" ++ Mode.full.endpointName)
      = ⟨Method.post, "http://localhost:7777" ++ "/v1/text/" ++ Mode.full.endpointName,
          ⟨"some text", "edge"⟩⟩
    ∧ backgroundDispatch "http://127.0.0.1:7777" "http://example.com" "some text"
        "edge" ⟨"", []⟩ Mode.full.urlAction
      = some ⟨Method.post, "http://127.0.0.1:7777" ++ "/v1/url/" ++ Mode.full.endpointName,
          some (ExtensionBody.kv [("url", "http://example.com"),
            ("tts_engine", "edge"), ("task", Mode.full.taskName)])⟩
    ∧ backgroundDispatch "http://127.0.0.1:7777" "http://example.com" "some text"
        "edge" ⟨"", []⟩ "addTextFull"
      = some ⟨Method.post, "http://127.0.0.1:7777" ++ "/v1/text/full",
          some (ExtensionBody.kv [("text", "some text"),
            ("tts_engine", "edge"), ("task", "full")])⟩
    ∧ backgroundDispatch "http://127.0.0.1:7777" "http://example.com" "some text"
        "edge" ⟨"", []⟩ "addTextSummary"
      = some ⟨Method.post, "http://127.0.0.1:7777" ++ "/v1/text/summary",
          some (ExtensionBody.kv [("text", "some text"),
            ("tts_engine", "edge"), ("task", "tldr")])⟩
    ∧ backgroundDispatch "http://127.0.0.1:7777" "http://example.com" "some text"
        "edge" ⟨"", []⟩ "addTextPodcast" = none :=
  C2_enqueue_requests ⟨"http://localhost:7777", "edge"⟩ "http://127.0.0.1:7777"
    "http://example.com" "some text" "edge" Mode.full ⟨"", []⟩ (by decide)

/-- C3, counterexample: the modal status view polls a URL different from
serverUrl/v1/queue/status, so not every queue-status poll by the UI
requests that endpoint. -/
theorem C3_counterexample :
    statusUrl "http://localhost:7777" ≠ queueStatusUrl "http://localhost:7777" := by
  decide

/-- C3, amended: the hover-card widget polls GET serverUrl/v1/queue/status
and consumes task_count and tasks from its response, while the modal status
view polls GET serverUrl/v1/status and consumes the queue counts, errors
and lastUpdate (and no tasks field) from its response. -/
theorem C3_status_polling (s now : String) (d : RawStatusData) (pd : PollData) :
    queueStatusUrl s = s ++ "/v1/queue/status"
    ∧ statusUrl s = s ++ "/v1/status"
    ∧ (pollStep pollInit pd).1
        = ⟨some pd.task_count, some pd.task_count, pd.tasks.getD []⟩
    ∧ formatStatus now d
        = ⟨⟨(d.queue.bind RawQueue.pending).getD 0,
            (d.queue.bind RawQueue.processing).getD 0,
            (d.queue.bind RawQueue.completed).getD 0,
            (d.queue.bind RawQueue.failed).getD 0⟩,
           none, d.errors.getD [], d.lastUpdate.getD now⟩ := by
  refine ⟨rfl, rfl, ?_, rfl⟩
  simp [pollStep, countChanged, pollInit]

/-- C4, counterexample: the remove request for a concrete task carries the
serialised type, content and tts_engine fields and no id field, so the
body does not identify the task by a TaskId. -/
theorem C4_counterexample :
    (removeTaskRequest ⟨"http://localhost:7777", "edge"⟩
        ⟨"url/full", "http://example.com/a", "edge"⟩).body
      = [("type", "url/full"), ("content", "http://example.com/a"), ("tts_engine", "edge")]
    ∧ "id" ∉ ((removeTaskRequest ⟨"http://localhost:7777", "edge"⟩
        ⟨"url/full", "http://example.com/a", "edge"⟩).body.map Prod.fst) := by
  refine ⟨rfl, by decide⟩

/-- C4, amended: the remove action issues DELETE serverUrl/v1/queue/remove
with the JSON-serialised task (its type, content and tts_engine fields) as
body, and on a successful response the article list and the task list are
refreshed, while a failed response only raises an error toast. -/
theorem C4_remove_task (s : Settings) (t : QueueTask) :
    removeTaskRequest s t
      = ⟨Method.delete, s.serverUrl ++ "/v1/queue/remove",
          [("type", t.type), ("content", t.content), ("tts_engine", t.tts_engine)]⟩
    ∧ removeTaskFollowUps true
      = [FollowUp.toastSuccess, FollowUp.refreshArticlesAct, FollowUp.fetchQueueStatusAct]
    ∧ removeTaskFollowUps false = [FollowUp.toastError] :=
  ⟨rfl, rfl, rfl⟩

/-- C5, counterexample: the extension popup submits a source whose keyword
list contains the empty string (and no category field), so not every
add-source submission removes empty entries. -/
theorem C5_counterexample :
    popupSends "https://example.com/feed" "node," = true
    ∧ (popupSourceData "https://example.com/feed" "node,").keywords = ["node", ""]
    ∧ "" ∈ (popupSourceData "https://example.com/feed" "node,").keywords := by
  refine ⟨by decide, by decide, by decide⟩

/-- C5, amended: the SourceManager UI sends a body whose single source
carries the entered URL, the sentinel star list when fetch-all is selected
and otherwise the comma-split input trimmed with empty entries removed, so
its keyword list never contains the empty string; the extension popup
instead sends the comma-split trimmed input with empty entries kept and no
category. -/
theorem C5_add_source_body (url keywords : String) (fetchAll : Bool)
    (category customCategory : String) :
    handleAddSourceBody url keywords fetchAll category customCategory
      = ⟨[⟨url, sourceKeywords fetchAll keywords,
            sourceCategory category customCategory⟩]⟩
    ∧ sourceKeywords true keywords = ["*"]
    ∧ "" ∉ sourceKeywords fetchAll keywords
    ∧ popupKeywords keywords = (jsSplit ',' keywords).map jsTrim := by
  refine ⟨rfl, rfl, ?_, rfl⟩
  cases fetchAll with
  | false =>
    intro hmem
    simp only [sourceKeywords, Bool.false_eq_true, if_false, List.mem_filter] at hmem
    exact absurd hmem.2 (by decide)
  | true =>
    intro hmem
    simp only [sourceKeywords, if_true] at hmem
    exact absurd hmem (by decide)

/-- C6: an entry appears in the rendered todays-news group of a category
exactly when it was fetched, its published timestamp maps to the current
day, and the category is the one the entry is grouped under, where an
entry with an empty category is grouped under Uncategorized. -/
theorem C6_today_feed_display (isoDay : String → String) (today : String)
    (entries : List FeedEntry) (c : String) (e : FeedEntry) :
    e ∈ displayedEntries isoDay today entries c
      ↔ e ∈ entries ∧ isoDay e.published = today ∧ c = entryCategory e := by
  unfold displayedEntries groupedFeedEntries
  rw [foldl_groupStep]
  simp only [List.nil_append, List.mem_filter, beq_iff_eq]
  constructor
  · rintro ⟨⟨he, hc⟩, hd⟩
    exact ⟨he, hd, hc.symm⟩
  · rintro ⟨he, hd, hc⟩
    exact ⟨⟨he, hc.symm⟩, hd⟩

/-- C7: a status response whose queue, tasks and errors fields are absent
or empty yields, through the formatting of fetchStatus and the fallbacks of
StatusContent, a display state with all four counts zero, an empty task
list and an empty error list; both derivations are total functions, so
rendering cannot fail. -/
theorem C7_empty_status_tolerated (now : String) (d : RawStatusData)
    (hq : d.queue = none ∨ d.queue = some ⟨none, none, none, none⟩)
    (_ht : d.tasks = none ∨ d.tasks = some [])
    (he : d.errors = none ∨ d.errors = some []) :
    statusContentView (formatStatus now d)
      = ⟨⟨0, 0, 0, 0⟩, [], [], d.lastUpdate.getD now⟩ := by
  rcases hq with hq | hq <;> rcases he with he | he <;>
    simp [statusContentView, formatStatus, hq, he]

/-- C7, witness: the theorem applied to the fully absent status response. -/
theorem C7_empty_status_tolerated_witness :
    statusContentView (formatStatus "2026-10-11T00:00:00Z" ⟨none, none, none, none⟩)
      = ⟨⟨0, 0, 0, 0⟩, [], [], "2026-10-11T00:00:00Z"⟩ :=
  C7_empty_status_tolerated "2026-10-11T00:00:00Z" ⟨none, none, none, none⟩
    (Or.inl rfl) (Or.inl rfl) (Or.inl rfl)

/-- C8: deleting a library item issues DELETE serverUrl/v1/audio with an
items array holding the content_type and id of that item; the outcome is
failure exactly when the response is not ok or carries a nonempty errors
array, and on success the article list is re-fetched. -/
theorem C8_delete_media (s : Settings) (a : Article) (ok : Bool) (r : DeleteResult) :
    handleDeleteRequest s a
      = ⟨Method.delete, s.serverUrl ++ "/v1/audio", ⟨[⟨a.content_type, a.id⟩]⟩⟩
    ∧ (handleDeleteOutcome ok r = DeleteOutcome.failure
        ↔ (ok = false ∨ ∃ es, r.errors = some es ∧ es ≠ []))
    ∧ deleteFollowUps DeleteOutcome.success
        = [FollowUp.toastSuccess, FollowUp.fetchArticlesAct]
    ∧ deleteFollowUps DeleteOutcome.failure = [FollowUp.toastError] := by
  refine ⟨rfl, ?_, rfl, rfl⟩
  rcases r with ⟨err⟩
  cases ok
  · simp [handleDeleteOutcome]
  · rcases err with _ | es
    · simp [handleDeleteOutcome]
    · cases es <;> simp [handleDeleteOutcome]

/-- C9: every article in the sorted library list has a nonempty id and an
accepted content type, invalid fetched items are dropped by validation, and
the list is a permutation of the validated articles ordered with the most
recent date (date_published falling back to date_added) first. -/
theorem C9_library_list (toTime : String → Int) (data : List RawMediaItem) :
    (∀ a ∈ sortedArticles toTime data,
        a.id ≠ "" ∧ a.content_type ∈ validContentTypes)
    ∧ (sortedArticles toTime data).Pairwise
        (fun a b => toTime (sortDateString b) ≤ toTime (sortDateString a))
    ∧ (sortedArticles toTime data).Perm (validArticles data)
    ∧ (∀ item ∈ data,
        (item.id = "" ∨ item.content_type ∉ validContentTypes) →
          validateItem item = none) := by
  refine ⟨?_, ?_, ?_, ?_⟩
  · intro a ha
    rw [sortedArticles, List.mem_mergeSort, validArticles, List.mem_filterMap] at ha
    obtain ⟨item, -, hv⟩ := ha
    unfold validateItem at hv
    split at hv
    · exact Option.noConfusion hv
    · rename_i hc
      obtain rfl := Option.some.inj hv
      have hc2 : ¬((item.id = "" ∨ item.content_type = "")
          ∨ item.content_type ∉ validContentTypes) :=
        fun hor => hc (by simp; exact hor)
      push_neg at hc2
      exact ⟨hc2.1.1, hc2.2⟩
  · have hs := @List.sorted_mergeSort _ (newestFirst toTime)
      (fun a b c hab hbc => by
        simp only [newestFirst, decide_eq_true_eq] at hab hbc ⊢
        omega)
      (fun a b => by
        simp only [newestFirst, Bool.or_eq_true, decide_eq_true_eq]
        omega)
      (validArticles data)
    exact hs.imp (fun h => by simpa [newestFirst] using h)
  · exact List.mergeSort_perm (validArticles data) (newestFirst toTime)
  · intro item _ h
    rcases h with h | h
    · simp [validateItem, h]
    · simp [validateItem]
      exact fun _ _ => h

/-- C10: after any sequence of polls, the next poll triggers the article
library refresh exactly when a previous task count is stored and the newly
reported task_count is strictly smaller; in particular the very first poll
never triggers it. -/
theorem C10_refresh_trigger (ds : List PollData) (d : PollData) :
    ((pollStep (pollRun ds) d).2 = true
      ↔ ∃ p, (pollRun ds).previousTaskCount = some p ∧ d.task_count < p)
    ∧ (pollStep pollInit d).2 = false := by
  constructor
  · have hinv := pollRun_inv ds
    rcases hp : (pollRun ds).previousTaskCount with _ | p
    · unfold pollStep
      split <;> simp [hp]
    · have htc : (pollRun ds).taskCount = some p := by rw [hinv, hp]
      by_cases hd : d.task_count < p
      · have hcc : countChanged (pollRun ds) d = true := by
          simp only [countChanged, htc, bne_iff_ne, ne_eq, Option.some.injEq]
          omega
        simp [pollStep, hcc, hp, hd]
      · unfold pollStep
        split <;> simp [hp, hd]
  · simp [pollStep, countChanged, pollInit]

end Read2Me
